import Mathlib

/-!
Verification development for the sdc-rabbit consumer library
(`sdc/rabbit/consumers.py`): a shallow embedding of the pure decision
logic of `AsyncConsumer`, `TornadoConsumer` and `MessageConsumer`,
together with theorems about message acknowledgment, endpoint rotation,
backoff and connection-open handling.

The embedding models Python exceptions as values of a closed inductive
type.  The exception classes themselves live in `sdc/rabbit/exceptions.py`
(not part of the consumer module); they are modelled from the spec's
error taxonomy as pairwise-distinct classes, which is all the `except`
clauses of `consumers.py` depend on: the quarantine handler names
`QuarantinableError` and `BadMessageError` explicitly, so their mutual
subclass relationship never affects dispatch.
-/

/-- Python exception kinds that can reach the `except` clauses of
`consumers.py`.  `keyError` and `typeError` arise from
`properties.headers['tx_id']` (missing key, resp. `headers is None`);
`attributeError` is raised by `MessageConsumer.__init__` for a
non-callable `process`; `zeroDivisionError` models `count % 0`;
`indexError` models an out-of-range list subscript; the remaining
constructors are the `sdc.rabbit.exceptions` classes plus a stand-in
`otherError` for any other `Exception` subclass. -/
inductive PyExc where
  | keyError
  | typeError
  | attributeError
  | zeroDivisionError
  | indexError
  | retryableError
  | quarantinableError
  | badMessageError
  | publishMessageError
  | otherError
deriving DecidableEq, Repr

/-- State of `properties.headers` as seen by `MessageConsumer.tx_id`:
`headers` is `None` (subscripting raises `TypeError`), `headers` is a
mapping without the key `tx_id` (raises `KeyError`), or the key is
present with a string value. -/
inductive HeadersState where
  | noHeaders
  | missingTxId
  | withTxId (t : String)
deriving DecidableEq, Repr

/-- Outcome of `self.quarantine_publisher.publish_message`: it either
returns normally or raises `PublishMessageError`. -/
inductive PublishOutcome where
  | ok
  | raisesPublishMessageError
deriving DecidableEq, Repr

/-- Terminal broker acknowledgment RPCs issued through the channel:
`basic_ack`, `basic_nack`, `basic_reject` (the latter with its
`requeue` flag), each carrying the delivery tag. -/
inductive BrokerAction where
  | ack (delivery_tag : Nat)
  | nack (delivery_tag : Nat)
  | reject (delivery_tag : Nat) (requeue : Bool)
deriving DecidableEq, Repr

/-- The delivery tag an acknowledgment action is issued against. -/
def BrokerAction.tag : BrokerAction → Nat
  | .ack t => t
  | .nack t => t
  | .reject t _ => t

/-- Observable result of one `MessageConsumer.on_message` call: the
broker acknowledgment actions issued (in order), whether the processing
callback was invoked, and the quarantine-publish attempts made, each
recording the raw body and the `tx_id` value put in the headers. -/
structure OnMessageResult where
  actions : List BrokerAction
  processInvoked : Bool
  publishAttempts : List (List Nat × Option String)
deriving DecidableEq, Repr

/-- Embedding of `MessageConsumer.tx_id` (consumers.py:467-481):
`properties.headers['tx_id']` raises `TypeError` when `headers` is
`None`, `KeyError` when the key is absent, and otherwise returns the
value. -/
def tx_id : HeadersState → Except PyExc String
  | .noHeaders => .error .typeError
  | .missingTxId => .error .keyError
  | .withTxId t => .ok t

/-- The `tx_id` value in scope after step 1 of `on_message` succeeds:
the extracted header value when checking is enabled, `None` otherwise. -/
def extractedTx (check_tx_id : Bool) (headers : HeadersState) : Option String :=
  if check_tx_id then
    match headers with
    | .withTxId t => some t
    | _ => none
  else none

/-- Embedding of `MessageConsumer.on_message` (consumers.py:524-589).
Inputs abstract the delivery and its collaborators: `headers` is the
state of `properties.headers`, `body` the raw byte payload, `proc` the
outcome of evaluating `self.process(body.decode("utf-8"), tx_id)`
(`none` = returns normally, `some e` = raises `e`), and `pub` the
outcome of the quarantine publish, consulted only if one is attempted.

The structure mirrors the source: step 1 extracts `tx_id` when
`check_tx_id` is set, rejecting (requeue left at its default `False`)
and returning on `KeyError` or `TypeError`; step 2 runs the callback in
a nested `try` whose `except TypeError` re-raises `QuarantinableError`;
the outer handlers acknowledge on success, publish-then-reject on
`QuarantinableError`/`BadMessageError` (rejecting with `requeue=True`
when the publish raises `PublishMessageError`), and nack on
`RetryableError` or any other `Exception`. -/
def on_message (check_tx_id : Bool) (headers : HeadersState) (delivery_tag : Nat)
    (body : List Nat) (proc : Option PyExc) (pub : PublishOutcome) : OnMessageResult :=
  let step1 : Except BrokerAction (Option String) :=
    if check_tx_id then
      match tx_id headers with
      | .ok t => .ok (some t)
      | .error _ => .error (.reject delivery_tag false)
    else
      .ok none
  match step1 with
  | .error a => ⟨[a], false, []⟩
  | .ok tx =>
    let raised : Option PyExc :=
      match proc with
      | some .typeError => some .quarantinableError
      | other => other
    match raised with
    | none => ⟨[.ack delivery_tag], true, []⟩
    | some .quarantinableError =>
      match pub with
      | .ok => ⟨[.reject delivery_tag false], true, [(body, tx)]⟩
      | .raisesPublishMessageError => ⟨[.reject delivery_tag true], true, [(body, tx)]⟩
    | some .badMessageError =>
      match pub with
      | .ok => ⟨[.reject delivery_tag false], true, [(body, tx)]⟩
      | .raisesPublishMessageError => ⟨[.reject delivery_tag true], true, [(body, tx)]⟩
    | some .retryableError => ⟨[.nack delivery_tag], true, []⟩
    | some _ => ⟨[.nack delivery_tag], true, []⟩

/-- C1: every call to `on_message` issues exactly one terminal broker
acknowledgment action, that action carries the delivery tag, and at
most one quarantine publish is attempted — for every headers state and
every outcome of the callback and of the publisher, including a failed
quarantine publish. -/
theorem on_message_exactly_one_action (check_tx_id : Bool) (headers : HeadersState)
    (delivery_tag : Nat) (body : List Nat) (proc : Option PyExc) (pub : PublishOutcome) :
    ((on_message check_tx_id headers delivery_tag body proc pub).actions).map BrokerAction.tag
        = [delivery_tag] ∧
    (on_message check_tx_id headers delivery_tag body proc pub).publishAttempts.length ≤ 1 := by
  rcases proc with _ | e <;>
    [skip; cases e] <;>
    cases check_tx_id <;>
    cases headers <;>
    cases pub <;>
    simp [on_message, tx_id, BrokerAction.tag]

/-- C2: when the callback raises `QuarantinableError` or
`BadMessageError` (and the delivery got past the tx_id check, so the
callback actually ran), `on_message` makes exactly one quarantine
publish attempt with the original raw payload and the extracted
`tx_id`, then issues exactly one `reject` with `requeue=False` if the
publish succeeds and exactly one `reject` with `requeue=True` if it
raises `PublishMessageError` — no ack and no nack in either case. -/
theorem on_message_quarantinable_path (check_tx_id : Bool) (headers : HeadersState)
    (delivery_tag : Nat) (body : List Nat) (proc : Option PyExc) (pub : PublishOutcome)
    (hq : proc = some PyExc.quarantinableError ∨ proc = some PyExc.badMessageError)
    (hstep : check_tx_id = false ∨ ∃ t, headers = HeadersState.withTxId t) :
    (on_message check_tx_id headers delivery_tag body proc pub).publishAttempts
        = [(body, extractedTx check_tx_id headers)] ∧
    (on_message check_tx_id headers delivery_tag body proc pub).actions
        = [BrokerAction.reject delivery_tag
            (decide (pub = PublishOutcome.raisesPublishMessageError))] := by
  rcases hq with rfl | rfl <;>
    rcases hstep with rfl | ⟨t, rfl⟩ <;>
    (try cases check_tx_id) <;>
    cases pub <;>
    simp [on_message, tx_id, extractedTx]

/-- Witness for `on_message_quarantinable_path` at a concrete input. -/
theorem on_message_quarantinable_path_witness :
    (on_message true (HeadersState.withTxId "abc123") 7 [1, 2]
        (some PyExc.quarantinableError) PublishOutcome.raisesPublishMessageError).publishAttempts
        = [([1, 2], extractedTx true (HeadersState.withTxId "abc123"))] ∧
    (on_message true (HeadersState.withTxId "abc123") 7 [1, 2]
        (some PyExc.quarantinableError) PublishOutcome.raisesPublishMessageError).actions
        = [BrokerAction.reject 7
            (decide (PublishOutcome.raisesPublishMessageError
              = PublishOutcome.raisesPublishMessageError))] :=
  on_message_quarantinable_path true (HeadersState.withTxId "abc123") 7 [1, 2]
    (some PyExc.quarantinableError) PublishOutcome.raisesPublishMessageError
    (Or.inl rfl) (Or.inr ⟨"abc123", rfl⟩)

/-- C3: with tx_id checking enabled, a delivery whose properties have no
headers mapping or no `tx_id` key gets exactly one `reject` with
`requeue=False`, the callback is never invoked, and no quarantine
publish is attempted. -/
theorem on_message_missing_tx_id (headers : HeadersState) (delivery_tag : Nat)
    (body : List Nat) (proc : Option PyExc) (pub : PublishOutcome)
    (h : headers = HeadersState.noHeaders ∨ headers = HeadersState.missingTxId) :
    on_message true headers delivery_tag body proc pub
        = ⟨[BrokerAction.reject delivery_tag false], false, []⟩ := by
  rcases h with rfl | rfl <;> rfl

/-- Witness for `on_message_missing_tx_id` at a concrete input. -/
theorem on_message_missing_tx_id_witness :
    on_message true HeadersState.noHeaders 3 [9] (some PyExc.retryableError) PublishOutcome.ok
        = ⟨[BrokerAction.reject 3 false], false, []⟩ :=
  on_message_missing_tx_id HeadersState.noHeaders 3 [9]
    (some PyExc.retryableError) PublishOutcome.ok (Or.inl rfl)

/-- C9: when the callback runs, a normal return yields exactly one ack
(and nothing else), while `RetryableError` or any other exception that
is not `TypeError`, `QuarantinableError` or `BadMessageError` yields
exactly one nack and no quarantine publish attempt. -/
theorem on_message_ack_nack (check_tx_id : Bool) (headers : HeadersState)
    (delivery_tag : Nat) (body : List Nat) (pub : PublishOutcome)
    (hstep : check_tx_id = false ∨ ∃ t, headers = HeadersState.withTxId t) :
    (on_message check_tx_id headers delivery_tag body none pub
        = ⟨[BrokerAction.ack delivery_tag], true, []⟩) ∧
    ∀ e : PyExc,
      (e = PyExc.retryableError ∨
        (e ≠ PyExc.typeError ∧ e ≠ PyExc.quarantinableError ∧ e ≠ PyExc.badMessageError)) →
      on_message check_tx_id headers delivery_tag body (some e) pub
        = ⟨[BrokerAction.nack delivery_tag], true, []⟩ := by
  constructor
  · rcases hstep with rfl | ⟨t, rfl⟩ <;> (try cases check_tx_id) <;> rfl
  · intro e he
    rcases hstep with rfl | ⟨t, rfl⟩ <;>
      (try cases check_tx_id) <;>
      cases e <;>
      simp_all [on_message, tx_id]

/-- Witness for `on_message_ack_nack` at a concrete input. -/
theorem on_message_ack_nack_witness :
    (on_message false HeadersState.missingTxId 11 [4] none PublishOutcome.ok
        = ⟨[BrokerAction.ack 11], true, []⟩) ∧
    ∀ e : PyExc,
      (e = PyExc.retryableError ∨
        (e ≠ PyExc.typeError ∧ e ≠ PyExc.quarantinableError ∧ e ≠ PyExc.badMessageError)) →
      on_message false HeadersState.missingTxId 11 [4] (some e) PublishOutcome.ok
        = ⟨[BrokerAction.nack 11], true, []⟩ :=
  on_message_ack_nack false HeadersState.missingTxId 11 [4] PublishOutcome.ok (Or.inl rfl)

/-- C10: a `TypeError` raised during the invocation of the processing
callback is handled exactly like `QuarantinableError`: one quarantine
publish attempt is made and the delivery is rejected
(`requeue=True` exactly when the publish fails) — it is never nacked. -/
theorem on_message_typeerror_quarantined (check_tx_id : Bool) (headers : HeadersState)
    (delivery_tag : Nat) (body : List Nat) (pub : PublishOutcome)
    (hstep : check_tx_id = false ∨ ∃ t, headers = HeadersState.withTxId t) :
    (on_message check_tx_id headers delivery_tag body (some PyExc.typeError) pub
        = on_message check_tx_id headers delivery_tag body (some PyExc.quarantinableError) pub) ∧
    (on_message check_tx_id headers delivery_tag body (some PyExc.typeError) pub).publishAttempts
        = [(body, extractedTx check_tx_id headers)] ∧
    (on_message check_tx_id headers delivery_tag body (some PyExc.typeError) pub).actions
        = [BrokerAction.reject delivery_tag
            (decide (pub = PublishOutcome.raisesPublishMessageError))] := by
  rcases hstep with rfl | ⟨t, rfl⟩ <;>
    (try cases check_tx_id) <;>
    cases pub <;>
    simp [on_message, tx_id, extractedTx]

/-- Witness for `on_message_typeerror_quarantined` at a concrete input. -/
theorem on_message_typeerror_quarantined_witness :
    (on_message true (HeadersState.withTxId "tx") 5 [0] (some PyExc.typeError) PublishOutcome.ok
        = on_message true (HeadersState.withTxId "tx") 5 [0]
            (some PyExc.quarantinableError) PublishOutcome.ok) ∧
    (on_message true (HeadersState.withTxId "tx") 5 [0]
        (some PyExc.typeError) PublishOutcome.ok).publishAttempts
        = [([0], extractedTx true (HeadersState.withTxId "tx"))] ∧
    (on_message true (HeadersState.withTxId "tx") 5 [0]
        (some PyExc.typeError) PublishOutcome.ok).actions
        = [BrokerAction.reject 5 (decide (PublishOutcome.ok
            = PublishOutcome.raisesPublishMessageError))] :=
  on_message_typeerror_quarantined true (HeadersState.withTxId "tx") 5 [0]
    PublishOutcome.ok (Or.inr ⟨"tx", rfl⟩)

/-- Python list subscription with an `Int` index: non-negative indices
read from the front, negative indices count from the back, and an
out-of-range index yields `none` (Python raises `IndexError`). -/
def pyListGet {α : Type} (l : List α) (i : Int) : Option α :=
  if 0 ≤ i then l.get? i.toNat
  else if 0 ≤ (l.length : Int) + i then l.get? ((l.length : Int) + i).toNat
  else none

/-- Embedding of the endpoint-selection step of `AsyncConsumer.connect`
(consumers.py:70-75) and `TornadoConsumer.connect` (consumers.py:408-413):
`server_choice = (self._count % no_of_servers) - 1` followed by
`self._rabbit_urls[server_choice]`.  With an empty list the modulo
raises `ZeroDivisionError` (modelled as an error value); otherwise the
Python index `(count % N) - 1` lies in `-1 .. N-2`, where `-1` denotes
the last element.  The function is pure: it never modifies the list. -/
def connect_select (count : Nat) (rabbit_urls : List String) : Except PyExc String :=
  let no_of_servers := rabbit_urls.length
  if no_of_servers = 0 then Except.error PyExc.zeroDivisionError
  else
    let server_choice : Int := ((count % no_of_servers : Nat) : Int) - 1
    match pyListGet rabbit_urls server_choice with
    | some u => Except.ok u
    | none => Except.error PyExc.indexError

/-- State stored by `AsyncConsumer.__init__` (consumers.py:28-57). -/
structure AsyncConsumerState where
  durable_queue : Bool
  exchange : String
  exchange_type : String
  rabbit_queue : String
  rabbit_urls : List String
  url : Option String
  count : Nat
  closing : Bool
deriving DecidableEq, Repr

/-- Embedding of `AsyncConsumer.__init__` (consumers.py:28-57): stores
the configuration unconditionally — it performs no validation at all —
with `_url = None`, `_count = 1`, `_closing = False`. -/
def AsyncConsumer.init (durable_queue : Bool) (exchange exchange_type rabbit_queue : String)
    (rabbit_urls : List String) : AsyncConsumerState :=
  ⟨durable_queue, exchange, exchange_type, rabbit_queue, rabbit_urls, none, 1, false⟩

/-- State of a `MessageConsumer` (consumers.py:483-522): the base
`AsyncConsumer` state plus the `check_tx_id` flag. -/
structure MessageConsumerState where
  base : AsyncConsumerState
  check_tx_id : Bool
deriving DecidableEq, Repr

/-- Embedding of `MessageConsumer.__init__` (consumers.py:483-522): the
only check performed is `callable(process)` — a non-callable `process`
raises `AttributeError`; every other argument, including `rabbit_urls`,
is stored without validation. -/
def MessageConsumer.init (processCallable : Bool) (durable_queue : Bool)
    (exchange exchange_type rabbit_queue : String) (rabbit_urls : List String)
    (check_tx_id : Bool) : Except PyExc MessageConsumerState :=
  if processCallable then
    Except.ok ⟨AsyncConsumer.init durable_queue exchange exchange_type rabbit_queue rabbit_urls,
      check_tx_id⟩
  else
    Except.error PyExc.attributeError

/-- Whether an `Except` computation returned normally. -/
def exceptOk {ε α : Type} : Except ε α → Bool
  | .ok _ => true
  | .error _ => false

/-- Auxiliary: reading a list with `get?` inside its bounds yields
exactly the `getD` value. -/
theorem get?_eq_some_getD {α : Type} (l : List α) (n : Nat) (d : α) (h : n < l.length) :
    l.get? n = some (l.getD n d) := by
  rw [List.get?_eq_getElem?, List.getD_eq_getElem?_getD, List.getElem?_eq_getElem h]
  rfl

/-- Auxiliary arithmetic: when `count` is a positive multiple of `N`,
its predecessor's residue is `N - 1`. -/
theorem sub_one_mod_of_mod_eq_zero (count N : Nat) (hN : 0 < N) (hc : 0 < count)
    (h : count % N = 0) : (count - 1) % N = N - 1 := by
  have hdm := Nat.div_add_mod count N
  rw [h, Nat.add_zero] at hdm
  rcases hq : count / N with _ | q
  · rw [hq] at hdm
    omega
  · rw [hq] at hdm
    have hcount : count = N * q + N := by
      rw [← hdm, Nat.mul_succ]
    have hsub : count - 1 = N * q + (N - 1) := by omega
    rw [hsub, Nat.mul_add_mod, Nat.mod_eq_of_lt (by omega)]

/-- Auxiliary arithmetic: when `count % N` is positive, the
predecessor's residue is one less. -/
theorem sub_one_mod_of_mod_pos (count N : Nat) (hN : 0 < N) (h : 0 < count % N) :
    (count - 1) % N = count % N - 1 := by
  have hdm := Nat.div_add_mod count N
  have hlt : count % N < N := Nat.mod_lt _ hN
  have hsub : count - 1 = N * (count / N) + (count % N - 1) := by omega
  rw [hsub, Nat.mul_add_mod, Nat.mod_eq_of_lt (by omega)]

/-- C5 (amended): for a non-empty endpoint list and the positive retry
counter maintained by the consumer, endpoint selection deterministically
returns the element at position `(count - 1) mod N` — the Python index
`(count % N) - 1`, with `-1` meaning the last element — not
`count mod N`. -/
theorem connect_select_formula (count : Nat) (rabbit_urls : List String)
    (h : 0 < rabbit_urls.length) (hc : 0 < count) :
    connect_select count rabbit_urls
      = Except.ok (rabbit_urls.getD ((count - 1) % rabbit_urls.length) "") := by
  have hne : rabbit_urls.length ≠ 0 := by omega
  have hev : connect_select count rabbit_urls
      = match pyListGet rabbit_urls (((count % rabbit_urls.length : Nat) : Int) - 1) with
        | some u => Except.ok u
        | none => Except.error PyExc.indexError := by
    simp only [connect_select]
    rw [if_neg hne]
  rw [hev]
  rcases hr : count % rabbit_urls.length with _ | s
  · have hidx : (count - 1) % rabbit_urls.length = rabbit_urls.length - 1 :=
      sub_one_mod_of_mod_eq_zero count rabbit_urls.length h hc hr
    rw [hidx]
    have hpy : pyListGet rabbit_urls (((0 : Nat) : Int) - 1)
        = rabbit_urls.get? (rabbit_urls.length - 1) := by
      unfold pyListGet
      rw [if_neg (by omega), if_pos (by omega)]
      congr 1
      omega
    rw [hpy, get?_eq_some_getD rabbit_urls (rabbit_urls.length - 1) "" (by omega)]
  · have hlt : s + 1 < rabbit_urls.length := by
      have := Nat.mod_lt count h
      omega
    have hidx : (count - 1) % rabbit_urls.length = s := by
      have h2 := sub_one_mod_of_mod_pos count rabbit_urls.length h (by omega)
      rw [hr] at h2
      simpa using h2
    rw [hidx]
    have hpy : pyListGet rabbit_urls (((s + 1 : Nat) : Int) - 1) = rabbit_urls.get? s := by
      unfold pyListGet
      rw [if_pos (by omega)]
      congr 1
      omega
    rw [hpy, get?_eq_some_getD rabbit_urls s "" (by omega)]

/-- Witness for `connect_select_formula` at a concrete input. -/
theorem connect_select_formula_witness :
    connect_select 3 ["amqp0", "amqp1"]
      = Except.ok (["amqp0", "amqp1"].getD ((3 - 1) % (["amqp0", "amqp1"] : List String).length) "") :=
  connect_select_formula 3 ["amqp0", "amqp1"] (by decide) (by decide)

/-- C5 counterexample: with two endpoints and counter 1 the code
selects `endpoints[0]`, whereas the claim's formula
`endpoints[counter mod N]` names `endpoints[1]`. -/
theorem connect_select_cex :
    connect_select 1 ["amqp0", "amqp1"] = Except.ok "amqp0" ∧
    (["amqp0", "amqp1"] : List String).getD (1 % 2) "" = "amqp1" ∧
    "amqp0" ≠ "amqp1" := by
  refine ⟨rfl, rfl, ?_⟩
  decide

/-- C4 (amended): construction does not validate the endpoint list — a
`MessageConsumer` built with `rabbit_urls = []` (and a callable
`process`) is created without error; the failure surfaces only in
`connect()`, where `count % 0` raises `ZeroDivisionError`. -/
theorem init_no_endpoint_validation (durable_queue : Bool)
    (exchange exchange_type rabbit_queue : String) (check_tx_id : Bool) :
    exceptOk (MessageConsumer.init true durable_queue exchange exchange_type rabbit_queue []
        check_tx_id) = true ∧
    ∀ count : Nat, connect_select count [] = Except.error PyExc.zeroDivisionError :=
  ⟨rfl, fun _ => rfl⟩

/-- C4 counterexample: a consumer constructed with an empty endpoint
list is created successfully (the constructor does not raise), and the
very first `connect()` attempt fails with `ZeroDivisionError`. -/
theorem init_empty_urls_cex :
    exceptOk (MessageConsumer.init true true "exc" "topic" "q" [] true) = true ∧
    connect_select 1 [] = Except.error PyExc.zeroDivisionError :=
  ⟨rfl, rfl⟩

/-- Auxiliary: reading a list at every position of `range length` via
`getD` reproduces the list. -/
theorem range_map_getD {α : Type} (l : List α) (d : α) :
    (List.range l.length).map (fun j => l.getD j d) = l := by
  apply List.ext_getElem
  · simp
  · intro n h1 h2
    rw [List.getElem_map, List.getElem_range, List.getD_eq_getElem?_getD,
      List.getElem?_eq_getElem h2]
    rfl

/-- Auxiliary: the same, with each element wrapped in `Except.ok`. -/
theorem range_map_ok_getD (l : List String) :
    (List.range l.length).map (fun j => (Except.ok (l.getD j "") : Except PyExc String))
      = l.map Except.ok := by
  have h : (List.range l.length).map (fun j => (Except.ok (l.getD j "") : Except PyExc String))
      = ((List.range l.length).map (fun j => l.getD j "")).map Except.ok := by
    rw [List.map_map]
    rfl
  rw [h, range_map_getD]

/-- Auxiliary: the indices `(c + i - 1) mod N` for `i < N` (the
positions selected by `N` consecutive counter values starting at
`c ≥ 1`) form a permutation of `range N`. -/
theorem rotation_index_perm (c N : Nat) (hN : 0 < N) (hc : 0 < c) :
    List.Perm ((List.range N).map (fun i => (c + i - 1) % N)) (List.range N) := by
  have hnd : ((List.range N).map (fun i => (c + i - 1) % N)).Nodup := by
    refine List.Nodup.map_on ?_ (List.nodup_range N)
    intro i hi j hj hij
    rw [List.mem_range] at hi hj
    have hmi : c + i - 1 = (c - 1) + i := by omega
    have hmj : c + j - 1 = (c - 1) + j := by omega
    rw [hmi, hmj] at hij
    have hmod : Nat.ModEq N i j := Nat.ModEq.add_left_cancel' (c - 1) hij
    have hij2 : i % N = j % N := hmod
    rwa [Nat.mod_eq_of_lt hi, Nat.mod_eq_of_lt hj] at hij2
  have hsub : ((List.range N).map (fun i => (c + i - 1) % N)) ⊆ List.range N := by
    intro x hx
    rw [List.mem_map] at hx
    obtain ⟨i, _, rfl⟩ := hx
    rw [List.mem_range]
    exact Nat.mod_lt _ hN
  exact (hnd.subperm hsub).perm_of_length_le (by simp)

/-- C6: starting from any positive counter value `c`, the `N`
consecutive connection attempts with counters `c, c+1, ..., c+N-1`
select every one of the `N` configured endpoints exactly once — a
permutation of the list — and the cycle then repeats
(`connect_select (c+N) = connect_select c`). -/
theorem connect_select_cycle (c : Nat) (rabbit_urls : List String)
    (h : 0 < rabbit_urls.length) (hc : 0 < c) :
    List.Perm
      ((List.range rabbit_urls.length).map (fun i => connect_select (c + i) rabbit_urls))
      (rabbit_urls.map Except.ok) ∧
    connect_select (c + rabbit_urls.length) rabbit_urls = connect_select c rabbit_urls := by
  constructor
  · have h1 : (List.range rabbit_urls.length).map (fun i => connect_select (c + i) rabbit_urls)
        = (List.range rabbit_urls.length).map
            (fun i => Except.ok (rabbit_urls.getD ((c + i - 1) % rabbit_urls.length) "")) := by
      apply List.map_congr_left
      intro i _
      exact connect_select_formula (c + i) rabbit_urls h (by omega)
    have h3 : (List.range rabbit_urls.length).map
          (fun i => (Except.ok (rabbit_urls.getD ((c + i - 1) % rabbit_urls.length) "")
            : Except PyExc String))
        = ((List.range rabbit_urls.length).map (fun i => (c + i - 1) % rabbit_urls.length)).map
            (fun j => Except.ok (rabbit_urls.getD j "")) := by
      rw [List.map_map]
      rfl
    rw [h1, h3]
    have h2 := (rotation_index_perm c rabbit_urls.length h hc).map
      (fun j => (Except.ok (rabbit_urls.getD j "") : Except PyExc String))
    refine h2.trans ?_
    rw [range_map_ok_getD]
  · rw [connect_select_formula c rabbit_urls h hc,
      connect_select_formula (c + rabbit_urls.length) rabbit_urls h (by omega)]
    have hsh : c + rabbit_urls.length - 1 = (c - 1) + rabbit_urls.length := by omega
    rw [hsh, Nat.add_mod_right]

/-- Witness for `connect_select_cycle` at a concrete input. -/
theorem connect_select_cycle_witness :
    List.Perm
      ((List.range (["amqp0", "amqp1"] : List String).length).map
        (fun i => connect_select (3 + i) ["amqp0", "amqp1"]))
      ((["amqp0", "amqp1"] : List String).map Except.ok) ∧
    connect_select (3 + (["amqp0", "amqp1"] : List String).length) ["amqp0", "amqp1"]
      = connect_select 3 ["amqp0", "amqp1"] :=
  connect_select_cycle 3 ["amqp0", "amqp1"] (by decide) (by decide)

/-- Embedding of `AsyncConsumer._delay_before_reconnect`
(consumers.py:386-391): returns the number of seconds passed to
`time.sleep` (the current `_count`) and the updated `_count`
(incremented by exactly one). -/
def delay_before_reconnect (count : Nat) : Nat × Nat := (count, count + 1)

/-- The sequence of sleep durations over `k` consecutive failed
connection attempts starting at counter `c`: each failure sleeps
`_count` seconds, then increments `_count` (consumers.py:83-86,
consumers.py:386-391). -/
def failedAttemptDelays : Nat → Nat → List Nat
  | _, 0 => []
  | c, k + 1 =>
    (delay_before_reconnect c).1 :: failedAttemptDelays (delay_before_reconnect c).2 k

/-- The counter value after `k` consecutive failed attempts starting at
counter `c`. -/
def countAfterFailures : Nat → Nat → Nat
  | c, 0 => c
  | c, k + 1 => countAfterFailures (delay_before_reconnect c).2 k

/-- Auxiliary: the delays from counter `c` over `k` failures are
`c, c+1, ..., c+k-1`. -/
theorem failedAttemptDelays_eq (c k : Nat) :
    failedAttemptDelays c k = (List.range k).map (fun i => i + c) := by
  induction k generalizing c with
  | zero => rfl
  | succ k ih =>
    have hstep : failedAttemptDelays c (k + 1) = c :: failedAttemptDelays (c + 1) k := rfl
    rw [hstep, ih, List.range_succ_eq_map, List.map_cons, List.map_map]
    have htail : (List.range k).map (fun i => i + (c + 1))
        = (List.range k).map ((fun i => i + c) ∘ Nat.succ) := by
      apply List.map_congr_left
      intro i _
      simp only [Function.comp]
      omega
    rw [htail]
    simp

/-- Auxiliary: the counter grows by exactly one per failed attempt. -/
theorem countAfterFailures_eq (c k : Nat) : countAfterFailures c k = c + k := by
  induction k generalizing c with
  | zero => rfl
  | succ k ih =>
    have hstep : countAfterFailures c (k + 1) = countAfterFailures (c + 1) k := rfl
    rw [hstep, ih]
    omega

/-- C7: starting from a fresh counter (`_count = 1`), `K = k + 1`
consecutive failed connection attempts sleep exactly
`1, 2, ..., K` seconds in order (one delay per attempt, none skipped),
so the delay slept before attempt `K + 1` is `K` seconds; the counter
is incremented by exactly one on each unsuccessful attempt, ending at
`K + 1`. -/
theorem backoff_linear (k : Nat) :
    failedAttemptDelays 1 (k + 1) = (List.range (k + 1)).map (fun i => i + 1) ∧
    (failedAttemptDelays 1 (k + 1)).getLast? = some (k + 1) ∧
    countAfterFailures 1 (k + 1) = (k + 1) + 1 ∧
    ∀ c : Nat, delay_before_reconnect c = (c, c + 1) := by
  refine ⟨failedAttemptDelays_eq 1 (k + 1), ?_, by rw [countAfterFailures_eq 1 (k + 1)]; omega, fun _ => rfl⟩
  rw [failedAttemptDelays_eq 1 (k + 1), List.range_succ, List.map_append]
  simp

/-- Events raised by `AsyncConsumer.on_connection_open`, in program
order: the log line, the assignment `self._count = 1`, and the call to
`open_channel` (which starts channel setup). -/
inductive ConnEvent where
  | logOpened
  | setCount (n : Nat)
  | openChannel
deriving DecidableEq, Repr

/-- Embedding of `AsyncConsumer.on_connection_open`
(consumers.py:93-103): resets `_count` to 1 and then calls
`open_channel`, leaving all other state untouched. -/
def on_connection_open (st : AsyncConsumerState) : AsyncConsumerState × List ConnEvent :=
  (⟨st.durable_queue, st.exchange, st.exchange_type, st.rabbit_queue, st.rabbit_urls,
      st.url, 1, st.closing⟩,
    [ConnEvent.logOpened, ConnEvent.setCount 1, ConnEvent.openChannel])

/-- C8: for every prior state — in particular any number of preceding
failed attempts reflected in `count` — `on_connection_open` leaves the
counter at exactly 1, and in its event trace the reset strictly
precedes the `open_channel` call that starts channel setup. -/
theorem on_connection_open_resets (st : AsyncConsumerState) :
    (on_connection_open st).1.count = 1 ∧
    (on_connection_open st).2
      = [ConnEvent.logOpened, ConnEvent.setCount 1, ConnEvent.openChannel] ∧
    (on_connection_open st).2.indexOf (ConnEvent.setCount 1)
      < (on_connection_open st).2.indexOf ConnEvent.openChannel :=
  ⟨rfl, rfl, by
    have h1 : (on_connection_open st).2.indexOf (ConnEvent.setCount 1) = 1 := rfl
    have h2 : (on_connection_open st).2.indexOf ConnEvent.openChannel = 2 := rfl
    rw [h1, h2]
    omega⟩
